import Mathlib

/-!
Shallow embedding of the save/load task orchestrator of `SaveExtension`
(`Source/SaveExtension/Public/SaveManager.h`).

Functions whose bodies are inline in the header (`IsValidSlot`,
`GenerateSlotName`, `HasTasks`, `IsInSlot`, `GetCurrentInfo`,
`GetCurrentData`, `__SetCurrentInfo`, `__SetCurrentData`,
`IterateSubscribedInterfaces`, and the `USlotInfo*` overloads of
`SaveSlot` / `LoadSlot` / `DeleteSlot`, `SaveCurrentSlot`,
`ReloadCurrentSlot`) are translated directly from the source. Functions
that the header only declares (`SaveSlot(int32)`, `LoadSlot(int32)`,
`DeleteSlot(int32)`, `DeleteAllSlots`, `CanLoadOrSave`,
`TryInstantiateInfo`, `LoadAllSlotInfos`, task finalization) are
modelled from the specification; each such definition says so in its
doc comment.

Pointers are modelled as `Option`; the single cooperative main thread
is modelled by a step function: observation points are the states
between steps.
-/

namespace SaveExt

/-- Configuration object (`USavePreset`); only the field the orchestrator
validates against is modelled: `GetMaxSlots()`. -/
structure USavePreset where
  MaxSlots : Int
deriving Repr, DecidableEq

/-- Lightweight slot metadata (`USlotInfo`): the slot identifier (`Id`,
an `int32`) and the save timestamp, abstracted to a `Nat`. -/
structure USlotInfo where
  Id : Int
  SaveDate : Nat
deriving Repr, DecidableEq, Inhabited

/-- Heavyweight world payload (`USlotData`), opaque to the orchestrator:
modelled as an abstract tag. -/
structure USlotData where
  Payload : Nat
deriving Repr, DecidableEq, Inhabited

/-- Kind of an exclusive slot-data task (`USlotDataTask` subclasses):
save, load, or bulk delete. -/
inductive ETaskKind
  | save
  | load
  | deleteAll
deriving Repr, DecidableEq

/-- One in-flight operation (`USlotDataTask`): its kind and the slot it
targets. -/
structure USlotDataTask where
  Kind : ETaskKind
  SlotId : Int
deriving Repr, DecidableEq

/-- Observable fan-out events (`OnSaveBegan` / `OnSaveFinished` /
`OnLoadBegan` / `OnLoadFinished`) and the one-shot completion callback
of a task. -/
inductive FanoutEvent
  | saveBegan (slotId : Int)
  | saveFinished (slotId : Int) (success : Bool)
  | loadBegan (slotId : Int)
  | loadFinished (slotId : Int) (success : Bool)
  | oneShotCallback (kind : ETaskKind) (success : Bool)
deriving Repr, DecidableEq

/-- A live engine object that a subscriber weak reference may point to
(`UObject`), abstracted to an identifier. -/
structure UObject where
  oid : Nat
deriving Repr, DecidableEq

/-- State of the orchestrator (`USaveManager`). `Disk` models the slot
store as an association list from slot identifier to the stored pair;
`SubscribedInterfaces` holds weak references (`none` = dead or
unreferenced); `Events` is the trace of fan-out deliveries; `Now` is a
logical clock advanced once per tick. -/
structure USaveManager where
  ActivePreset : USavePreset
  CurrentInfo : Option USlotInfo
  CurrentData : Option USlotData
  Tasks : List USlotDataTask
  Disk : List (Int × USlotInfo × USlotData)
  SubscribedInterfaces : List (Option UObject)
  Events : List FanoutEvent
  Now : Nat
deriving Repr, DecidableEq

/-- Accessor for the active configuration (`GetPreset`). -/
def USaveManager.GetPreset (s : USaveManager) : USavePreset :=
  s.ActivePreset

/-- Source `SaveManager.h:384-387`: `return Tasks.Num() > 0;`. -/
def USaveManager.HasTasks (s : USaveManager) : Bool :=
  s.Tasks.length > 0

/-- Source `SaveManager.h:390-394` (`IsSavingOrLoading`): `return HasTasks();`. -/
def USaveManager.IsSavingOrLoading (s : USaveManager) : Bool :=
  s.HasTasks

/-- Source `SaveManager.h:451-455`:
`const int32 MaxSlots = GetPreset()->GetMaxSlots();`
`return Slot >= 0 && (MaxSlots <= 0 || Slot < MaxSlots);`. -/
def USaveManager.IsValidSlot (s : USaveManager) (Slot : Int) : Bool :=
  let MaxSlots : Int := s.GetPreset.MaxSlots
  decide (Slot ≥ 0) && (decide (MaxSlots ≤ 0) || decide (Slot < MaxSlots))

/-- Source `SaveManager.h:338-341`:
`return IsValidSlot(SlotId) ? FString::FromInt(SlotId) : FString{};`. -/
def USaveManager.GenerateSlotName (s : USaveManager) (SlotId : Int) : String :=
  if s.IsValidSlot SlotId then toString SlotId else ""

/-- Source `SaveManager.h:322-325`: `return CurrentInfo && CurrentData;`. -/
def USaveManager.IsInSlot (s : USaveManager) : Bool :=
  s.CurrentInfo.isSome && s.CurrentData.isSome

/-- Source `SaveManager.h:345-348`: `CurrentInfo = NewInfo;`. -/
def USaveManager.__SetCurrentInfo (s : USaveManager) (NewInfo : Option USlotInfo) :
    USaveManager :=
  { s with CurrentInfo := NewInfo }

/-- Source `SaveManager.h:350-353`: `CurrentData = NewData;`. -/
def USaveManager.__SetCurrentData (s : USaveManager) (NewData : Option USlotData) :
    USaveManager :=
  { s with CurrentData := NewData }

/-- Lookup of a slot on the modelled store by identifier. -/
def diskFind (disk : List (Int × USlotInfo × USlotData)) (SlotId : Int) :
    Option (USlotInfo × USlotData) :=
  match disk.find? (fun e => e.1 == SlotId) with
  | some e => some e.2
  | none => none

/-- Modelled from the spec (body of `IsSlotSaved` is not in the header):
Slot Store `Exists(slotId) -> bool` — true when the slot is present on
storage. -/
def USaveManager.IsSlotSaved (s : USaveManager) (SlotId : Int) : Bool :=
  (diskFind s.Disk SlotId).isSome

/-- Modelled from the spec (body of `CanLoadOrSave` is not in the header):
an exclusive request is admissible exactly when no exclusive task is
active. -/
def USaveManager.CanLoadOrSave (s : USaveManager) : Bool :=
  !s.HasTasks

/-- Modelled from the spec (body of `TryInstantiateInfo` is not in the
header): lazily instantiate an empty, non-persisted current SlotInfo
and SlotData when none exists yet; `IsInSlot` is the inline source
check. -/
def USaveManager.TryInstantiateInfo (s : USaveManager) (bForced : Bool) :
    USaveManager :=
  if s.IsInSlot && !bForced then s
  else
    (s.__SetCurrentInfo (some default)).__SetCurrentData (some default)

/-- Source `SaveManager.h:284-290`: `TryInstantiateInfo(); return CurrentInfo;`.
Returns the member together with the possibly updated state. -/
def USaveManager.GetCurrentInfo (s : USaveManager) :
    Option USlotInfo × USaveManager :=
  let s2 := s.TryInstantiateInfo false
  (s2.CurrentInfo, s2)

/-- Source `SaveManager.h:292-298`: `TryInstantiateInfo(); return CurrentData;`. -/
def USaveManager.GetCurrentData (s : USaveManager) :
    Option USlotData × USaveManager :=
  let s2 := s.TryInstantiateInfo false
  (s2.CurrentData, s2)

/-- Modelled from the spec (body of `SaveSlot(int32, ...)` is not in the
header): fails immediately — returns false with the state unchanged —
when the slot id is invalid, an exclusive task is active, or the slot
exists on disk while override is off; otherwise creates and starts a
Save task, firing `OnSaveBegan`. Thumbnail parameters are omitted: they
do not influence acceptance. -/
def USaveManager.SaveSlot (s : USaveManager) (SlotId : Int)
    (bOverrideIfNeeded : Bool) : Bool × USaveManager :=
  if !s.IsValidSlot SlotId then (false, s)
  else if !s.CanLoadOrSave then (false, s)
  else if s.IsSlotSaved SlotId && !bOverrideIfNeeded then (false, s)
  else
    (true,
      { s with
        Tasks := s.Tasks ++ [⟨ETaskKind.save, SlotId⟩]
        Events := s.Events ++ [FanoutEvent.saveBegan SlotId] })

/-- Modelled from the spec (body of `LoadSlot(int32, ...)` is not in the
header): fails immediately when the slot id is invalid, the slot is not
present on disk, or an exclusive task is active; otherwise creates and
starts a Load task, firing `OnLoadBegan`. -/
def USaveManager.LoadSlot (s : USaveManager) (SlotId : Int) :
    Bool × USaveManager :=
  if !s.IsValidSlot SlotId then (false, s)
  else if !s.IsSlotSaved SlotId then (false, s)
  else if !s.CanLoadOrSave then (false, s)
  else
    (true,
      { s with
        Tasks := s.Tasks ++ [⟨ETaskKind.load, SlotId⟩]
        Events := s.Events ++ [FanoutEvent.loadBegan SlotId] })

/-- Modelled from the spec (body of `DeleteSlot(int32)` is not in the
header): synchronous delete, guarded by the same exclusivity rule;
false when an exclusive task is active or the slot does not exist. -/
def USaveManager.DeleteSlotById (s : USaveManager) (SlotId : Int) :
    Bool × USaveManager :=
  if s.HasTasks then (false, s)
  else if !s.IsSlotSaved SlotId then (false, s)
  else (true, { s with Disk := s.Disk.filter (fun e => e.1 != SlotId) })

/-- Modelled from the spec (body of `DeleteAllSlots` is not in the
header): exclusive bulk-delete task; rejected while an exclusive task
is active, otherwise created and started. -/
def USaveManager.DeleteAllSlots (s : USaveManager) : Bool × USaveManager :=
  if !s.CanLoadOrSave then (false, s)
  else (true, { s with Tasks := s.Tasks ++ [⟨ETaskKind.deleteAll, 0⟩] })

/-- Source `SaveManager.h:123-131` (`SaveSlot(const USlotInfo*, ...)`):
`if (!SlotInfo) { return false; } return SaveSlot(SlotInfo->Id, ...);`. -/
def USaveManager.SaveSlotInfo (s : USaveManager) (SlotInfo : Option USlotInfo)
    (bOverrideIfNeeded : Bool) : Bool × USaveManager :=
  match SlotInfo with
  | none => (false, s)
  | some info => s.SaveSlot info.Id bOverrideIfNeeded

/-- Source `SaveManager.h:134-137` (`SaveCurrentSlot`):
`return SaveSlot(CurrentInfo, true, ...);`. -/
def USaveManager.SaveCurrentSlot (s : USaveManager) : Bool × USaveManager :=
  s.SaveSlotInfo s.CurrentInfo true

/-- Source `SaveManager.h:143-146` (`LoadSlot(const USlotInfo*, ...)`):
`return SlotInfo ? LoadSlot(SlotInfo->Id, ...) : false;`. -/
def USaveManager.LoadSlotInfo (s : USaveManager) (SlotInfo : Option USlotInfo) :
    Bool × USaveManager :=
  match SlotInfo with
  | some info => s.LoadSlot info.Id
  | none => (false, s)

/-- Source `SaveManager.h:149-152` (`ReloadCurrentSlot`):
`return LoadSlot(CurrentInfo, ...);`. -/
def USaveManager.ReloadCurrentSlot (s : USaveManager) : Bool × USaveManager :=
  s.LoadSlotInfo s.CurrentInfo

/-- Source `SaveManager.h:277-282` (`DeleteSlot(USlotInfo*)`):
`if (!Slot) return false; return DeleteSlot(Slot->Id);`. -/
def USaveManager.DeleteSlotInfo (s : USaveManager) (Slot : Option USlotInfo) :
    Bool × USaveManager :=
  match Slot with
  | none => (false, s)
  | some info => s.DeleteSlotById info.Id

/-- Write of a slot pair to the modelled store, replacing any existing
entry for the same identifier. -/
def diskWrite (disk : List (Int × USlotInfo × USlotData)) (SlotId : Int)
    (info : USlotInfo) (data : USlotData) : List (Int × USlotInfo × USlotData) :=
  disk.filter (fun e => e.1 != SlotId) ++ [(SlotId, info, data)]

/-- Modelled from the spec (task finalization runs in `Tick` /
`FinishTask`, whose bodies are not in the header): the tick finalizes
the task at the head of the active set. A Save task snapshots the pair,
writes it to the store, swaps it in as current (both members, via the
source setters, within the one step) and fires `OnSaveFinished` and the
one-shot callback. A Load task reads the stored pair, swaps both
current members within the one step and fires `OnLoadFinished` and the
callback. A bulk delete removes every stored slot and fires its
callback. -/
def USaveManager.FinishTask (s : USaveManager) : USaveManager :=
  match s.Tasks with
  | [] => s
  | t :: rest =>
    match t.Kind with
    | ETaskKind.save =>
      let info : USlotInfo := ⟨t.SlotId, s.Now⟩
      let data : USlotData := default
      let s2 := (s.__SetCurrentInfo (some info)).__SetCurrentData (some data)
      { s2 with
        Tasks := rest
        Disk := diskWrite s.Disk t.SlotId info data
        Events := s.Events ++
          [FanoutEvent.saveFinished t.SlotId true,
           FanoutEvent.oneShotCallback ETaskKind.save true] }
    | ETaskKind.load =>
      match diskFind s.Disk t.SlotId with
      | some (info, data) =>
        let s2 := (s.__SetCurrentInfo (some info)).__SetCurrentData (some data)
        { s2 with
          Tasks := rest
          Events := s.Events ++
            [FanoutEvent.loadFinished t.SlotId true,
             FanoutEvent.oneShotCallback ETaskKind.load true] }
      | none =>
        { s with
          Tasks := rest
          Events := s.Events ++
            [FanoutEvent.loadFinished t.SlotId false,
             FanoutEvent.oneShotCallback ETaskKind.load false] }
    | ETaskKind.deleteAll =>
      { s with
        Tasks := rest
        Disk := []
        Events := s.Events ++
          [FanoutEvent.oneShotCallback ETaskKind.deleteAll true] }

/-- One cooperative main-schedule tick: finalize the head task and
advance the logical clock. -/
def USaveManager.Tick (s : USaveManager) : USaveManager :=
  let s2 := s.FinishTask
  { s2 with Now := s2.Now + 1 }

/-- A request issued to the orchestrator, or one scheduling tick. -/
inductive Request
  | saveReq (SlotId : Int) (bOverrideIfNeeded : Bool)
  | loadReq (SlotId : Int)
  | deleteAllReq
  | tick
deriving Repr, DecidableEq

/-- Whether a request asks for an exclusive operation. -/
def Request.isExclusive : Request → Bool
  | Request.saveReq _ _ => true
  | Request.loadReq _ => true
  | Request.deleteAllReq => true
  | Request.tick => false

/-- Dispatch of one request (or tick) to the orchestrator: the boolean
is the synchronous accepted/rejected result. -/
def stepReq (s : USaveManager) (r : Request) : Bool × USaveManager :=
  match r with
  | Request.saveReq SlotId ov => s.SaveSlot SlotId ov
  | Request.loadReq SlotId => s.LoadSlot SlotId
  | Request.deleteAllReq => s.DeleteAllSlots
  | Request.tick => (true, s.Tick)

/-- Run of a request sequence from a state, one step at a time. -/
def run (s : USaveManager) : List Request → USaveManager
  | [] => s
  | r :: rs => run (stepReq s r).2 rs

/-- Orchestrator state at session start: a preset, a store content, no
current slot, no tasks, no subscribers yet. -/
def initialManager (preset : USavePreset)
    (disk : List (Int × USlotInfo × USlotData)) : USaveManager :=
  { ActivePreset := preset
    CurrentInfo := none
    CurrentData := none
    Tasks := []
    Disk := disk
    SubscribedInterfaces := []
    Events := []
    Now := 0 }

/-- Source `SaveManager.h:457-466` (`IterateSubscribedInterfaces`): the
loop over `SubscribedInterfaces` invoking the callback on
`Interface.GetObject()` only when it is non-null. The returned list is
the sequence of objects the callback is invoked on, in order. -/
def iterateSubs : List (Option UObject) → List UObject
  | [] => []
  | some o :: rest => o :: iterateSubs rest
  | none :: rest => iterateSubs rest

/-- Member form of `iterateSubs` on the orchestrator state. -/
def USaveManager.IterateSubscribedInterfaces (s : USaveManager) : List UObject :=
  iterateSubs s.SubscribedInterfaces

/-- One delivery during completion fan-out: either a broadcast to a
subscriber or the run of the one-shot completion callback. -/
inductive Notified
  | subscriber (o : UObject)
  | oneShot
deriving Repr, DecidableEq

/-- Modelled from the spec (completion fan-out order; the dispatch
bodies are not in the header): subscriber broadcast first via
`IterateSubscribedInterfaces`, then the task one-shot callback, on the
main schedule. -/
def fanOutTrace (s : USaveManager) : List Notified :=
  s.IterateSubscribedInterfaces.map Notified.subscriber ++ [Notified.oneShot]

/-- Ordering used when listing by recency: most recent save date first. -/
def recentFirst (a b : USlotInfo) : Prop :=
  b.SaveDate ≤ a.SaveDate

instance : DecidableRel recentFirst := fun a b =>
  inferInstanceAs (Decidable (b.SaveDate ≤ a.SaveDate))

instance : IsTotal USlotInfo recentFirst :=
  ⟨fun a b => Nat.le_total b.SaveDate a.SaveDate⟩

instance : IsTrans USlotInfo recentFirst :=
  ⟨fun _ _ _ h1 h2 => Nat.le_trans h2 h1⟩

/-- Ordering used when not listing by recency: slot identifier ascending. -/
def idAsc (a b : USlotInfo) : Prop :=
  a.Id ≤ b.Id

instance : DecidableRel idAsc := fun a b =>
  inferInstanceAs (Decidable (a.Id ≤ b.Id))

instance : IsTotal USlotInfo idAsc :=
  ⟨fun a b => Int.le_total a.Id b.Id⟩

instance : IsTrans USlotInfo idAsc :=
  ⟨fun _ _ _ h1 h2 => Int.le_trans h1 h2⟩

/-- Modelled from the spec (the listing task body is not in the header):
the listing orders the found SlotInfos by descending save time when
`bSortByRecent` is set, otherwise by slot identifier ascending. -/
def sortSlotInfos (bSortByRecent : Bool) (infos : List USlotInfo) :
    List USlotInfo :=
  if bSortByRecent then List.insertionSort recentFirst infos
  else List.insertionSort idAsc infos

/-- The SlotInfos present on the modelled store. -/
def USaveManager.storedInfos (s : USaveManager) : List USlotInfo :=
  s.Disk.map (fun e => e.2.1)

/-- Modelled from the spec (body of `LoadAllSlotInfos` is not in the
header): the asynchronous listing, anchored to the modelled store. The
returned list is what the delegate receives. -/
def USaveManager.LoadAllSlotInfos (s : USaveManager) (bSortByRecent : Bool) :
    List USlotInfo :=
  sortSlotInfos bSortByRecent s.storedInfos

/-- Modelled from the spec (body of `LoadAllSlotInfosSync` is not in the
header): the synchronous variant performs the same listing inline. -/
def USaveManager.LoadAllSlotInfosSync (s : USaveManager) (bSortByRecent : Bool) :
    List USlotInfo :=
  sortSlotInfos bSortByRecent s.storedInfos

/-- The pair a caller can observe at an observation point: current
SlotInfo with current SlotData. -/
def USaveManager.currentPair (s : USaveManager) :
    Option USlotInfo × Option USlotData :=
  (s.CurrentInfo, s.CurrentData)

/-- Observation points around one load-finalizing tick: the cooperative
scheduler exposes the state before the step and the state after it;
nothing between the two member swaps is observable. -/
def loadTickObservations (s : USaveManager) :
    List (Option USlotInfo × Option USlotData) :=
  [s.currentPair, s.FinishTask.currentPair]

/-- Concrete manager used by witnesses: max 5 slots, empty store. -/
def mgrEmpty : USaveManager :=
  initialManager ⟨5⟩ []

/-- Concrete manager used by witnesses: max 5 slots, slot 1 stored. -/
def mgrOne : USaveManager :=
  initialManager ⟨5⟩ [(1, ⟨1, 4⟩, ⟨11⟩)]

/-- Concrete manager used by witnesses: a load task for slot 2 active,
slot 2 stored. -/
def mgrLoading : USaveManager :=
  { ActivePreset := ⟨5⟩
    CurrentInfo := none
    CurrentData := none
    Tasks := [⟨ETaskKind.load, 2⟩]
    Disk := [(2, ⟨2, 9⟩, ⟨7⟩)]
    SubscribedInterfaces := []
    Events := []
    Now := 3 }

/-- Concrete manager used by witnesses: three slots saved at times
1 < 2 < 3, stored out of order. -/
def mgrThree : USaveManager :=
  initialManager ⟨0⟩ [(0, ⟨0, 2⟩, ⟨20⟩), (1, ⟨1, 1⟩, ⟨10⟩), (2, ⟨2, 3⟩, ⟨30⟩)]

/-- Any single dispatch step keeps the active task set at size at most
one: an exclusive request appends a task only when the set is empty,
and a tick only removes. -/
theorem stepReq_tasks_le_one (s : USaveManager) (r : Request)
    (h : s.Tasks.length ≤ 1) : ((stepReq s r).2).Tasks.length ≤ 1 := by
  cases r with
  | saveReq SlotId ov =>
    simp only [stepReq, USaveManager.SaveSlot]
    split
    · exact h
    · split
      · exact h
      · split
        · exact h
        · rename_i hbusy hexists
          have h0 : s.Tasks.length = 0 := by
            simp [USaveManager.CanLoadOrSave, USaveManager.HasTasks] at hbusy
            simp [hbusy]
          simp [h0]
  | loadReq SlotId =>
    simp only [stepReq, USaveManager.LoadSlot]
    split
    · exact h
    · split
      · exact h
      · split
        · exact h
        · rename_i hbusy
          have h0 : s.Tasks.length = 0 := by
            simp [USaveManager.CanLoadOrSave, USaveManager.HasTasks] at hbusy
            simp [hbusy]
          simp [h0]
  | deleteAllReq =>
    simp only [stepReq, USaveManager.DeleteAllSlots]
    split
    · exact h
    · rename_i hbusy
      have h0 : s.Tasks.length = 0 := by
        simp [USaveManager.CanLoadOrSave, USaveManager.HasTasks] at hbusy
        simp [hbusy]
      simp [h0]
  | tick =>
    simp only [stepReq, USaveManager.Tick]
    cases hTs : s.Tasks with
    | nil => simp [USaveManager.FinishTask, hTs]
    | cons t rest =>
      have hr : rest.length ≤ 1 := by
        have h2 := h
        rw [hTs] at h2
        simp only [List.length_cons] at h2
        omega
      cases hK : t.Kind <;>
        simp only [USaveManager.FinishTask, hTs, hK, USaveManager.__SetCurrentInfo,
          USaveManager.__SetCurrentData]
      · exact hr
      · cases hF : diskFind s.Disk t.SlotId with
        | none => simpa using hr
        | some p =>
          cases p
          simpa using hr
      · exact hr

/-- Running any request sequence preserves the at-most-one-task bound. -/
theorem run_tasks_le_one (s : USaveManager) (reqs : List Request)
    (h : s.Tasks.length ≤ 1) : (run s reqs).Tasks.length ≤ 1 := by
  induction reqs generalizing s with
  | nil => exact h
  | cons r rs ih => exact ih _ (stepReq_tasks_le_one s r h)

/-- An exclusive request dispatched while a task is active is rejected
with the state left completely unchanged. -/
theorem stepReq_busy_rejects (s : USaveManager) (r : Request)
    (hex : Request.isExclusive r = true) (hb : s.HasTasks = true) :
    stepReq s r = (false, s) := by
  cases r with
  | saveReq SlotId ov =>
    simp only [stepReq, USaveManager.SaveSlot, USaveManager.CanLoadOrSave, hb]
    split
    · rfl
    · simp
  | loadReq SlotId =>
    simp only [stepReq, USaveManager.LoadSlot, USaveManager.CanLoadOrSave, hb]
    split
    · rfl
    · split
      · rfl
      · simp
  | deleteAllReq =>
    simp [stepReq, USaveManager.DeleteAllSlots, USaveManager.CanLoadOrSave, hb]
  | tick =>
    simp [Request.isExclusive] at hex

/-- C1: For every sequence of requests issued to the orchestrator, no
two exclusive operations (Save, Load, DeleteAll) are ever active at the
same instant — the active task set reachable from a fresh session never
holds more than one task — and a further exclusive request issued while
one is active is rejected: it returns false and leaves the state (tasks
and fan-out event trace included) unchanged. -/
theorem exclusive_requests_never_overlap (preset : USavePreset)
    (disk : List (Int × USlotInfo × USlotData)) (reqs : List Request)
    (r : Request) :
    (run (initialManager preset disk) reqs).Tasks.length ≤ 1 ∧
    (Request.isExclusive r = true →
      (run (initialManager preset disk) reqs).HasTasks = true →
      stepReq (run (initialManager preset disk) reqs) r =
        (false, run (initialManager preset disk) reqs)) := by
  constructor
  · exact run_tasks_le_one _ reqs (by simp [initialManager])
  · intro hex hb
    exact stepReq_busy_rejects _ r hex hb

/-- Witness for C1 at Scenario A: with MaxSlots 5 and an empty store,
a first save request for slot 3 is accepted and a second save request
for slot 4 issued while the task is active is rejected unchanged. -/
theorem exclusive_requests_never_overlap_witness :
    stepReq (run (initialManager ⟨5⟩ []) [Request.saveReq 3 true])
        (Request.saveReq 4 true) =
      (false, run (initialManager ⟨5⟩ []) [Request.saveReq 3 true]) :=
  (exclusive_requests_never_overlap ⟨5⟩ [] [Request.saveReq 3 true]
    (Request.saveReq 4 true)).2 (by decide) (by decide)

/-- C2: The current slot pair is only ever replaced atomically. When the
tick finalizes a succeeding Load task, both `GetCurrentInfo` and
`GetCurrentData` reflect the newly loaded slot in full, and every
observation point around the step shows either the full old pair or the
full new pair — never a mix. -/
theorem current_pair_swapped_atomically (s : USaveManager)
    (t : USlotDataTask) (rest : List USlotDataTask) (info : USlotInfo)
    (data : USlotData) (htasks : s.Tasks = t :: rest)
    (hkind : t.Kind = ETaskKind.load)
    (hdisk : diskFind s.Disk t.SlotId = some (info, data)) :
    (s.FinishTask.GetCurrentInfo.1 = some info ∧
      s.FinishTask.GetCurrentData.1 = some data) ∧
    ∀ p ∈ loadTickObservations s,
      p = (s.CurrentInfo, s.CurrentData) ∨ p = (some info, some data) := by
  have hfin : s.FinishTask.CurrentInfo = some info ∧
      s.FinishTask.CurrentData = some data := by
    simp [USaveManager.FinishTask, htasks, hkind, hdisk,
      USaveManager.__SetCurrentInfo, USaveManager.__SetCurrentData]
  constructor
  · constructor
    · simp [USaveManager.GetCurrentInfo, USaveManager.TryInstantiateInfo,
        USaveManager.IsInSlot, hfin.1, hfin.2]
    · simp [USaveManager.GetCurrentData, USaveManager.TryInstantiateInfo,
        USaveManager.IsInSlot, hfin.1, hfin.2]
  · intro p hp
    simp only [loadTickObservations, USaveManager.currentPair,
      List.mem_cons, List.mem_singleton, List.not_mem_nil, or_false] at hp
    rcases hp with hp | hp
    · left
      exact hp
    · right
      rw [hp, hfin.1, hfin.2]

/-- Witness for C2: finalizing the active load task for slot 2 on the
concrete busy manager installs the stored pair of slot 2 as current. -/
theorem current_pair_swapped_atomically_witness :
    mgrLoading.FinishTask.GetCurrentInfo.1 = some ⟨2, 9⟩ ∧
      mgrLoading.FinishTask.GetCurrentData.1 = some ⟨7⟩ :=
  (current_pair_swapped_atomically mgrLoading ⟨ETaskKind.load, 2⟩ [] ⟨2, 9⟩ ⟨7⟩
    rfl rfl (by decide)).1

/-- C3: A save request fails immediately with the state unchanged (so no
task is created and no callback or fan-out event ever fires for it)
exactly when the slot id is invalid, an exclusive task is already
active, or the slot already exists on disk while override is off; in
every other case it creates and starts a Save task. -/
theorem saveSlot_rejects_exactly (s : USaveManager) (SlotId : Int)
    (ov : Bool) :
    ((s.SaveSlot SlotId ov).1 = false ↔
      s.IsValidSlot SlotId = false ∨ s.HasTasks = true ∨
        (s.IsSlotSaved SlotId = true ∧ ov = false)) ∧
    ((s.SaveSlot SlotId ov).1 = false → (s.SaveSlot SlotId ov).2 = s) ∧
    ((s.SaveSlot SlotId ov).1 = true →
      (s.SaveSlot SlotId ov).2.Tasks =
        s.Tasks ++ [⟨ETaskKind.save, SlotId⟩]) := by
  cases hV : s.IsValidSlot SlotId <;>
    cases hT : s.HasTasks <;>
      cases hS : s.IsSlotSaved SlotId <;>
        cases ov <;>
          simp [USaveManager.SaveSlot, USaveManager.CanLoadOrSave, hV, hT, hS]

/-- Witness for C3: on the concrete manager holding slot 1, a save
request for slot 1 with override off is rejected with the state
unchanged. -/
theorem saveSlot_rejects_exactly_witness :
    (mgrOne.SaveSlot 1 false).2 = mgrOne :=
  (saveSlot_rejects_exactly mgrOne 1 false).2.1 (by decide)

/-- C4: A load request for a slot that is invalid, not present on disk,
or issued while an exclusive task is active fails synchronously with
the state unchanged (no task, no callback); otherwise it creates and
starts a Load task. -/
theorem loadSlot_rejects_exactly (s : USaveManager) (SlotId : Int) :
    ((s.LoadSlot SlotId).1 = false ↔
      s.IsValidSlot SlotId = false ∨ s.IsSlotSaved SlotId = false ∨
        s.HasTasks = true) ∧
    ((s.LoadSlot SlotId).1 = false → (s.LoadSlot SlotId).2 = s) ∧
    ((s.LoadSlot SlotId).1 = true →
      (s.LoadSlot SlotId).2.Tasks = s.Tasks ++ [⟨ETaskKind.load, SlotId⟩]) := by
  cases hV : s.IsValidSlot SlotId <;>
    cases hT : s.HasTasks <;>
      cases hS : s.IsSlotSaved SlotId <;>
        simp [USaveManager.LoadSlot, USaveManager.CanLoadOrSave, hV, hT, hS]

/-- Witness for C4 at Scenario B: loading slot 7, absent from the
concrete empty store, is rejected with the state unchanged. -/
theorem loadSlot_rejects_exactly_witness :
    (mgrEmpty.LoadSlot 7).2 = mgrEmpty :=
  (loadSlot_rejects_exactly mgrEmpty 7).2.1 (by decide)

/-- C5: Slot validation accepts a slot id S against the configured
maximum M exactly when S is non-negative and either M ≤ 0 (unbounded)
or S < M; a rejected id never creates a task through a save or load
request. -/
theorem isValidSlot_characterization (s : USaveManager) (Slot : Int)
    (ov : Bool) :
    (s.IsValidSlot Slot = true ↔
      0 ≤ Slot ∧
        (s.GetPreset.MaxSlots ≤ 0 ∨ Slot < s.GetPreset.MaxSlots)) ∧
    (s.IsValidSlot Slot = false →
      (s.SaveSlot Slot ov).2.Tasks = s.Tasks ∧
        (s.LoadSlot Slot).2.Tasks = s.Tasks) := by
  constructor
  · simp [USaveManager.IsValidSlot, ge_iff_le]
  · intro h
    constructor
    · simp [USaveManager.SaveSlot, h]
    · simp [USaveManager.LoadSlot, h]

/-- Witness for C5: with MaxSlots 5, the negative slot id -1 is rejected
and a save request for it creates no task. -/
theorem isValidSlot_characterization_witness :
    (mgrEmpty.SaveSlot (-1) true).2.Tasks = mgrEmpty.Tasks ∧
      (mgrEmpty.LoadSlot (-1)).2.Tasks = mgrEmpty.Tasks :=
  (isValidSlot_characterization mgrEmpty (-1) true).2 (by decide)

/-- C6: The generated slot name is the decimal string of the identifier
when it passes validation and the empty string when it fails, so an
invalid identifier never reaches the slot store under a usable name;
the mapping is a function of the identifier and preset alone, hence
deterministic. -/
theorem generateSlotName_characterization (s : USaveManager)
    (SlotId : Int) :
    (s.IsValidSlot SlotId = true →
      s.GenerateSlotName SlotId = toString SlotId) ∧
    (s.IsValidSlot SlotId = false → s.GenerateSlotName SlotId = "") := by
  constructor <;> intro h <;> simp [USaveManager.GenerateSlotName, h]

/-- Witness for C6: with MaxSlots 5, slot 3 is valid and its generated
name is the decimal string of 3. -/
theorem generateSlotName_characterization_witness :
    mgrEmpty.GenerateSlotName 3 = toString (3 : Int) :=
  (generateSlotName_characterization mgrEmpty 3).1 (by decide)

/-- C7: `GetCurrentInfo` and `GetCurrentData` never return null: when no
current slot exists they lazily instantiate an empty current pair, so
every caller observes a non-null value, and the lazily created pair is
never persisted — the store is untouched. -/
theorem getCurrent_never_null (s : USaveManager) :
    (s.GetCurrentInfo.1.isSome = true ∧ s.GetCurrentData.1.isSome = true) ∧
    s.GetCurrentInfo.2.Disk = s.Disk ∧ s.GetCurrentData.2.Disk = s.Disk := by
  cases hI : s.CurrentInfo <;> cases hD : s.CurrentData <;>
    simp [USaveManager.GetCurrentInfo, USaveManager.GetCurrentData,
      USaveManager.TryInstantiateInfo, USaveManager.IsInSlot,
      USaveManager.__SetCurrentInfo, USaveManager.__SetCurrentData, hI, hD]

/-- The source subscriber loop invokes the callback exactly on the
non-null underlying objects, in subscription order. -/
theorem iterateSubs_eq_filterMap (l : List (Option UObject)) :
    iterateSubs l = l.filterMap id := by
  induction l with
  | nil => rfl
  | cons o rest ih =>
    cases o <;> simp [iterateSubs, ih]

/-- C8: During completion fan-out every live subscriber is notified in
subscription order and every dead (null) entry is skipped without
fault: the invocations are exactly the non-null subscriber objects in
order, and the task's own one-shot callback runs only after all of
them, as the final delivery. -/
theorem fanout_live_in_order_then_oneshot (s : USaveManager) :
    s.IterateSubscribedInterfaces = s.SubscribedInterfaces.filterMap id ∧
    fanOutTrace s =
      (s.SubscribedInterfaces.filterMap id).map Notified.subscriber ++
        [Notified.oneShot] := by
  constructor
  · exact iterateSubs_eq_filterMap s.SubscribedInterfaces
  · simp [fanOutTrace, USaveManager.IterateSubscribedInterfaces,
      iterateSubs_eq_filterMap]

/-- C9: Both the asynchronous and the synchronous slot-info listing
return the stored SlotInfos ordered by descending save time when the
sort-by-recency flag is set and by slot identifier ascending when it is
not, and the result is a permutation of what is stored. -/
theorem loadAllSlotInfos_ordering (s : USaveManager) (b : Bool) :
    s.LoadAllSlotInfosSync b = s.LoadAllSlotInfos b ∧
    (s.LoadAllSlotInfos b).Perm s.storedInfos ∧
    (b = true → (s.LoadAllSlotInfos b).Sorted recentFirst) ∧
    (b = false → (s.LoadAllSlotInfos b).Sorted idAsc) := by
  refine ⟨rfl, ?_, ?_, ?_⟩
  · cases b <;>
      simpa [USaveManager.LoadAllSlotInfos, sortSlotInfos] using
        List.perm_insertionSort _ s.storedInfos
  · intro hb
    subst hb
    simpa [USaveManager.LoadAllSlotInfos, sortSlotInfos] using
      List.sorted_insertionSort recentFirst s.storedInfos
  · intro hb
    subst hb
    simpa [USaveManager.LoadAllSlotInfos, sortSlotInfos] using
      List.sorted_insertionSort idAsc s.storedInfos

/-- Witness for C9 at Scenario C: over three slots saved at times
1 < 2 < 3 the recency-sorted listing is ordered most recent first. -/
theorem loadAllSlotInfos_ordering_witness :
    (mgrThree.LoadAllSlotInfos true).Sorted recentFirst :=
  (loadAllSlotInfos_ordering mgrThree true).2.2.1 rfl

/-- C10: Each `USlotInfo*` overload — save, load, delete — returns false
on a null pointer without creating a task and without changing any
orchestrator state, and consequently `SaveCurrentSlot` and
`ReloadCurrentSlot` return false unchanged when no current slot
exists. -/
theorem null_slotinfo_overloads_fail (s : USaveManager) (ov : Bool) :
    s.SaveSlotInfo none ov = (false, s) ∧
    s.LoadSlotInfo none = (false, s) ∧
    s.DeleteSlotInfo none = (false, s) ∧
    (s.CurrentInfo = none →
      s.SaveCurrentSlot = (false, s) ∧ s.ReloadCurrentSlot = (false, s)) := by
  refine ⟨rfl, rfl, rfl, ?_⟩
  intro h
  constructor
  · simp [USaveManager.SaveCurrentSlot, USaveManager.SaveSlotInfo, h]
  · simp [USaveManager.ReloadCurrentSlot, USaveManager.LoadSlotInfo, h]

/-- Witness for C10: on the fresh concrete manager, which has no current
slot, saving and reloading the current slot both fail unchanged. -/
theorem null_slotinfo_overloads_fail_witness :
    mgrEmpty.SaveCurrentSlot = (false, mgrEmpty) ∧
      mgrEmpty.ReloadCurrentSlot = (false, mgrEmpty) :=
  (null_slotinfo_overloads_fail mgrEmpty true).2.2.2 rfl

end SaveExt
